import Mathlib

/-
Verification of the gorbagefactory payment-verification and mint-issuance
pipeline (src/app/api/verify/route.ts and src/app/api/run/route.ts).

Shallow embedding conventions:
* JavaScript numbers are modelled as `JsNum` (NaN / Infinity / -Infinity /
  finite rational).  Where a value is known finite (after the source's own
  validation) plain `ℚ` is used.  All claims proved below are control-flow
  claims that are insensitive to binary floating-point rounding: the only
  numeric comparisons involved compare exact constants (0, the configured
  caps and counts, lamport integers) that double arithmetic also decides
  exactly at the concrete points used.
* JavaScript objects used as string-keyed records (`usedMints`,
  `usedSignatures`) are modelled as association lists with unique keys;
  `recSet` overwrites in place exactly as property assignment does.
* External collaborators (node `crypto` SHA-256, `JSON.parse`/`stringify`,
  the Solana RPC connection, Supabase, Pinata, Metaplex, the filesystem
  clock) are modelled as fields of an `Env` record supplying their
  outcomes; the route's own logic that consumes those outcomes is
  translated statement by statement from the source.
-/

namespace Gorbage

attribute [local semireducible] Rat.mul Rat.inv Rat.add Rat.sub

/-- Machine selection (`type Machine` in verify/route.ts). -/
inductive Machine where
  | CONVEYOR
  | COMPACTOR
  | HAZMAT
deriving DecidableEq, Fintype

/-- Rarity tier (`type TierId` in verify/route.ts). -/
inductive TierId where
  | tier1
  | tier2
  | tier3
deriving DecidableEq, Fintype

instance {ε α : Type} [DecidableEq ε] [DecidableEq α] : DecidableEq (Except ε α) :=
  fun x y =>
    match x, y with
    | .ok a, .ok b =>
        if h : a = b then isTrue (by rw [h]) else isFalse (by simp [h])
    | .error a, .error b =>
        if h : a = b then isTrue (by rw [h]) else isFalse (by simp [h])
    | .ok _, .error _ => isFalse (by simp)
    | .error _, .ok _ => isFalse (by simp)

/-- The string name of a machine, as it appears in request bodies. -/
def Machine.name : Machine → String
  | .CONVEYOR => "CONVEYOR"
  | .COMPACTOR => "COMPACTOR"
  | .HAZMAT => "HAZMAT"

/-- The string name of a tier, as written into metadata and ledger JSON. -/
def TierId.name : TierId → String
  | .tier1 => "tier1"
  | .tier2 => "tier2"
  | .tier3 => "tier3"

/-- One committed remix record (`type LedgerEntry`). -/
structure LedgerEntry where
  originalMint : String
  mintedMint : String
  signature : String
  payer : String
  machine : Machine
  tier : TierId
  createdAt : String
deriving DecidableEq

/-- The persisted ledger document (`type Ledger`). -/
structure Ledger where
  usedMints : List (String × LedgerEntry)
  usedSignatures : List (String × String)
  lastMintCostLamports : Option String := none
  mintCount : Option Nat := none
  collectionMint : Option String := none
deriving DecidableEq

/-- Lookup in a JS-object-as-record (property read `r[k]`). -/
def recGet {α : Type} (r : List (String × α)) (k : String) : Option α :=
  (r.find? (fun p => p.1 == k)).map (fun p => p.2)

/-- Property assignment `r[k] = v`: overwrite in place if the key exists,
append otherwise (JS objects keep insertion order). -/
def recSet {α : Type} (r : List (String × α)) (k : String) (v : α) :
    List (String × α) :=
  if (r.find? (fun p => p.1 == k)).isSome then
    r.map (fun p => if p.1 == k then (k, v) else p)
  else
    r ++ [(k, v)]

/-- A JavaScript number: NaN, the two infinities, or a finite value
(modelled exactly as a rational). -/
inductive JsNum where
  | nan
  | inf
  | ninf
  | fin (q : ℚ)
deriving DecidableEq

/-- `Number.isFinite` / global `isFinite` on an already-numeric value. -/
def JsNum.isFinite : JsNum → Bool
  | .fin _ => true
  | _ => false

/-- The JS comparison `p <= 0` (false for NaN and +Infinity). -/
def JsNum.leZero : JsNum → Bool
  | .nan => false
  | .inf => false
  | .ninf => true
  | .fin q => decide (q ≤ 0)

/-- The JS comparison `b < n` for a natural right-hand side. -/
def JsNum.ltNat : JsNum → Nat → Bool
  | .nan, _ => false
  | .inf, _ => false
  | .ninf, _ => true
  | .fin q, n => decide (q < (n : ℚ))

/-- The finite value of a `JsNum`, defaulting to 0 (used only after the
source's own finiteness validation has succeeded). -/
def JsNum.toQ : JsNum → ℚ
  | .fin q => q
  | _ => 0

/-- Static configuration of the verify route: the module-level constants
read from `process.env` in src/app/api/verify/route.ts.  A missing env var
is modelled as the empty string for the `requireEnv` fields. -/
structure VerifyConfig where
  TREASURY : String
  PINATA_JWT : String
  MINT_AUTHORITY_KEYPAIR : String
  ROLL_SECRET : String
  GOR_LAMPORTS : JsNum
  PRICE_CONVEYOR : JsNum
  PRICE_COMPACTOR : JsNum
  PRICE_HAZMAT : JsNum
  TIER1_CAP : JsNum
  TIER2_CAP : JsNum
  TIER3_CAP : JsNum
  MAX_BODY_BYTES : JsNum
  MAX_IMAGE_BYTES : JsNum
  MAX_TX_SLOT_AGE : JsNum
  DEBUG_VERIFY : Bool
  envCollectionMint : Option String

/-- The module-initialization checks of verify/route.ts (lines 58-98): the
`requireEnv` calls, the ROLL_SECRET strength check, and the finiteness /
positivity checks on GOR_LAMPORTS and the three MAX_* limits.  Note that
the three PRICE_* constants and the three TIER*_CAP constants are *not*
checked here: the source validates them only inside `priceFor` and
`getTierCaps`, which run per request. -/
def verifyModuleInit (cfg : VerifyConfig) : Except String Unit :=
  if cfg.TREASURY = "" then
    .error "Missing required env var: TREASURY_WALLET"
  else if cfg.PINATA_JWT = "" then
    .error "Missing required env var: PINATA_JWT"
  else if cfg.MINT_AUTHORITY_KEYPAIR = "" then
    .error "Missing required env var: MINT_AUTHORITY_KEYPAIR"
  else if cfg.ROLL_SECRET = "" then
    .error "Missing required env var: ROLL_SECRET"
  else if cfg.ROLL_SECRET = "change-me" ∨
      cfg.ROLL_SECRET = "CHANGE_ME_TO_A_LONG_RANDOM_SECRET" ∨
      cfg.ROLL_SECRET.length < 32 then
    .error "ROLL_SECRET must be set to a strong random value"
  else if !cfg.GOR_LAMPORTS.isFinite || cfg.GOR_LAMPORTS.leZero then
    .error "Invalid GOR_LAMPORTS configuration"
  else if !cfg.MAX_BODY_BYTES.isFinite || cfg.MAX_BODY_BYTES.leZero then
    .error "Invalid MAX_BODY_BYTES configuration"
  else if !cfg.MAX_IMAGE_BYTES.isFinite || cfg.MAX_IMAGE_BYTES.leZero then
    .error "Invalid MAX_IMAGE_BYTES configuration"
  else if !cfg.MAX_TX_SLOT_AGE.isFinite || cfg.MAX_TX_SLOT_AGE.leZero then
    .error "Invalid MAX_TX_SLOT_AGE configuration"
  else
    .ok ()

/-- The price constant selected for a machine by `priceFor` (the ternary
chain of lines 140-145). -/
def priceRaw (cfg : VerifyConfig) (machine : Machine) : JsNum :=
  match machine with
  | .CONVEYOR => cfg.PRICE_CONVEYOR
  | .COMPACTOR => cfg.PRICE_COMPACTOR
  | .HAZMAT => cfg.PRICE_HAZMAT

/-- `priceFor` of verify/route.ts (lines 139-148): select the configured
price for a machine and throw per request if it is non-finite or
non-positive. -/
def priceFor (cfg : VerifyConfig) (machine : Machine) : Except String JsNum :=
  let p := priceRaw cfg machine
  if !p.isFinite || p.leZero then .error "Invalid machine price config"
  else .ok p

/-- JS `Math.round`: round half toward positive infinity. -/
def jsRound (q : ℚ) : Int := Rat.floor (q + 1 / 2)

/-- `toLamports` (line 199): `BigInt(Math.round(amount * GOR_LAMPORTS))`. -/
def toLamports (cfg : VerifyConfig) (amount : ℚ) : Int :=
  jsRound (amount * cfg.GOR_LAMPORTS.toQ)

/-- `BASE_ODDS` (lines 118-122); the source's decimal double literals
0.8, 0.18, ... are written as the exact fractions they denote. -/
def BASE_ODDS : Machine → TierId → ℚ
  | .CONVEYOR, .tier1 => 8 / 10
  | .CONVEYOR, .tier2 => 18 / 100
  | .CONVEYOR, .tier3 => 2 / 100
  | .COMPACTOR, .tier1 => 65 / 100
  | .COMPACTOR, .tier2 => 3 / 10
  | .COMPACTOR, .tier3 => 5 / 100
  | .HAZMAT, .tier1 => 45 / 100
  | .HAZMAT, .tier2 => 45 / 100
  | .HAZMAT, .tier3 => 1 / 10

/-- The string hashed by `rollTier`: `signature + "|" + machine + "|" +
ROLL_SECRET`. -/
def rollInput (machine : Machine) (signature secret : String) : String :=
  signature ++ "|" ++ machine.name ++ "|" ++ secret

/-- `rollTier` (lines 150-166).  The node-crypto SHA-256 digest is external
library code; it is abstracted as the function `sha256_32 : String → Nat`
giving the first four digest bytes as a big-endian 32-bit value
(`h.readUInt32BE(0)`); the `% 2^32` records that range (it is the identity
for any true 32-bit digest prefix).  Everything after the digest read is
translated directly. -/
def rollTier (sha256_32 : String → Nat) (secret : String) (machine : Machine)
    (signature : String) (counts caps : TierId → ℚ) : Except String TierId :=
  let h : Nat := sha256_32 (rollInput machine signature secret) % 2 ^ 32
  let n : ℚ := (h : ℚ) / 0xffffffff
  let w : TierId → ℚ := fun t => if counts t < caps t then BASE_ODDS machine t else 0
  let total := w .tier1 + w .tier2 + w .tier3
  if total ≤ 0 then .error "All tiers are sold out."
  else
    let r := n * total
    if r < w .tier1 then .ok .tier1
    else if r < w .tier1 + w .tier2 then .ok .tier2
    else .ok .tier3

/-- Primary effect pools of `pickEffectFromTier` (lines 169-181). -/
def primaryPools : TierId → List String
  | .tier1 => ["Rust Chrome", "Oil Slick", "Graffiti Tag", "Grime Wash",
      "Dusty Circuit", "Soot Fade"]
  | .tier2 => ["Toxic Slime Glow", "Dumpster Drip", "Mold Bloom",
      "Leachate Sheen", "Grease Halo", "Smog Streaks"]
  | .tier3 => ["Biohazard Aura", "Liquid Metal Mirror", "Radiation Veil",
      "Acid Mist", "Nuclear Afterglow", "Gamma Bloom",
      "Golden Dumpster (Mythic)"]

/-- Texture pool (line 182). -/
def texturePools : List String :=
  ["Grime Film", "Oil Vignette", "Smog Haze", "Mold Bloom", "Leachate Drip",
   "Soot Dust"]

/-- Glow pool (line 183). -/
def glowPools : List String :=
  ["Toxic Teal", "Amber Rust", "Magenta Spill", "Lime Halo", "Cold Cyan"]

/-- Edge pool (line 184). -/
def edgePools : List String :=
  ["Clean Edge", "Pitted Edge", "Burnt Edge", "Stickered Edge"]

/-- The cosmetic trait set produced by `pickEffectFromTier`. -/
structure Effect where
  primary : String
  texture : String
  glow : String
  edge : String
deriving DecidableEq

/-- The inner `pick` of `pickEffectFromTier` (lines 186-190): index a pool
by the 32-bit digest prefix of `key + "|" + signature` modulo pool size. -/
def pickFromPool (sha256_32 : String → Nat) (key signature : String)
    (arr : List String) : String :=
  arr.getD (sha256_32 (key ++ "|" ++ signature) % 2 ^ 32 % arr.length) ""

/-- `pickEffectFromTier` (lines 168-197). -/
def pickEffectFromTier (sha256_32 : String → Nat) (tier : TierId)
    (signature : String) : Effect :=
  { primary := pickFromPool sha256_32 "effect" signature (primaryPools tier)
    texture := pickFromPool sha256_32 "texture" signature texturePools
    glow := pickFromPool sha256_32 "glow" signature glowPools
    edge := pickFromPool sha256_32 "edge" signature edgePools }

/-- The characters matched by `BASE58_REGEX` (line 100). -/
def BASE58_CHARS : String :=
  "123456789ABCDEFGHJKLMNPQRSTUVWXYZabcdefghijkmnopqrstuvwxyz"

/-- Membership of one character in the base58 alphabet. -/
def isBase58Char (c : Char) : Bool := BASE58_CHARS.data.contains c

/-- `BASE58_REGEX.test s`: nonempty and all characters base58. -/
def isBase58 (s : String) : Bool :=
  decide (0 < s.data.length) && s.data.all isBase58Char

/-- `isValidSignature` (lines 203-205). -/
def isValidSignature (sig : String) : Bool :=
  decide (80 ≤ sig.data.length) && decide (sig.data.length ≤ 90) && isBase58 sig

/-- `isValidPublicKey` (lines 207-209). -/
def isValidPublicKey (key : String) : Bool :=
  decide (32 ≤ key.data.length) && decide (key.data.length ≤ 44) && isBase58 key

/-- JS whitespace characters handled by `String.prototype.trim`. -/
def isJsSpace (c : Char) : Bool :=
  c = ' ' ∨ c = '\t' ∨ c = '\n' ∨ c = '\r'

/-- `s.trim()`: strip leading and trailing whitespace. -/
def jsTrim (s : String) : String :=
  String.mk (((s.data.dropWhile isJsSpace).reverse.dropWhile isJsSpace).reverse)

/-- Truthiness of an optional string (JS: undefined and "" are falsy). -/
def strTruthy : Option String → Bool
  | none => false
  | some s => s ≠ ""

/-- Mutable filesystem-and-effect state threaded through one request.
`file` is the raw contents of the ledger file at LEDGER_PATH (`none` when
the file does not exist); `backups` collects the contents copied aside by
`backupCorruptedLedger`; `uploads` counts calls of `uploadToPinata` and
`mintCalls` counts Metaplex `nfts().create` submissions. -/
structure MState where
  file : Option String
  backups : List String
  uploads : Nat
  mintCalls : Nat
deriving DecidableEq

/-- `backupCorruptedLedger` (lines 228-232): if the ledger file exists,
copy its contents to a timestamped backup path. -/
def backupCorruptedLedger (s : MState) : MState :=
  match s.file with
  | none => s
  | some raw => { s with backups := s.backups ++ [raw] }

/-- Computation over `MState` that can throw a JS exception (a string
message), returning the state as of the throw. -/
def Pipe (α : Type) : Type := MState → Except String α × MState

/-- Pipe `pure`. -/
def Pipe.pure {α : Type} (a : α) : Pipe α := fun s => (.ok a, s)

/-- Pipe `bind`: propagate a throw, keeping the state at the throw. -/
def Pipe.bind {α β : Type} (x : Pipe α) (f : α → Pipe β) : Pipe β := fun s =>
  match x s with
  | (.ok a, s1) => f a s1
  | (.error e, s1) => (.error e, s1)

instance : Monad Pipe where
  pure := Pipe.pure
  bind := Pipe.bind

/-- Throw a JS exception. -/
def Pipe.throwErr {α : Type} (e : String) : Pipe α := fun s => (.error e, s)

/-- Lift a pure fallible result. -/
def Pipe.ofExcept {α : Type} (x : Except String α) : Pipe α := fun s => (x, s)

/-- Apply a state transformation. -/
def Pipe.modifyState (f : MState → MState) : Pipe Unit := fun s => (.ok (), f s)

/-- `loadLedger` (lines 234-253).  `JSON.parse` plus the field-defaulting
of lines 241-247 is external/structural and abstracted as the parameter
`parse`; a `none` result models a parse exception.  On parse failure the
corrupted file is backed up and the exception is rethrown; on success the
`mintCount ?? 0` defaulting is applied. -/
def loadLedger (parse : String → Option Ledger) : Pipe Ledger := fun s =>
  match s.file with
  | none => (.ok { usedMints := [], usedSignatures := [] }, s)
  | some raw =>
    match parse raw with
    | some l => (.ok { l with mintCount := some (l.mintCount.getD 0) }, s)
    | none =>
      (.error "Ledger corrupted - minting halted for safety",
       backupCorruptedLedger s)

/-- `saveLedger` (lines 255-260): atomically replace the ledger file with
the serialized document (`stringify` abstracts `JSON.stringify`). -/
def saveLedger (stringify : Ledger → String) (l : Ledger) (s : MState) :
    MState :=
  { s with file := some (stringify l) }

/-- The row read by `getPersistentState` (lines 262-279), after its
`?? 0` / `?? null` defaulting. -/
structure PState where
  mintCount : Nat
  collectionMint : Option String
deriving DecidableEq

/-- Outcomes supplied by the Supabase client when it is configured;
`Except.error` models a failed read/write, rethrown by the source as
`Supabase read failed` / `Supabase write failed`. -/
structure SupabaseEnv where
  stateRead : Except String PState
  sigUsed : String → Except String Bool
  tierCountsRead : Except String (TierId → Nat)
  persistWrite : Except String Unit

/-- A parsed instruction of the payment transaction as consumed by
`verifyPaymentInstruction` (lines 636-650).  `hasInfo` models the
truthiness of `ix.parsed.info`; `lamports` is `BigInt(info.lamports || 0)`. -/
structure Instr where
  program : String
  parsedType : String
  hasInfo : Bool
  source : String
  destination : String
  lamports : Nat
deriving DecidableEq

/-- The fields of a fetched parsed transaction consumed by the route:
`meta.err` truthiness, the account keys (base58), the slot, and the
instruction list. -/
structure ParsedTx where
  metaErr : Bool
  accountKeys : List String
  slot : Option Nat
  instructions : List Instr
deriving DecidableEq

/-- `SystemProgram.programId.toBase58()`. -/
def systemProgramIdB58 : String := "11111111111111111111111111111111"

/-- `verifyPaymentInstruction` (lines 636-650): scan the instruction list
for a direct system-program transfer from the claimed payer to the
treasury carrying at least the expected lamports. -/
def verifyPaymentInstruction (tx : ParsedTx) (payer treasury : String)
    (expectedLamports : Int) : Bool :=
  tx.instructions.any fun ix =>
    (ix.program == "system" || ix.program == systemProgramIdB58) &&
    ix.parsedType == "transfer" &&
    ix.hasInfo &&
    ix.source == payer &&
    ix.destination == treasury &&
    decide (expectedLamports ≤ (ix.lamports : Int))

/-- `getFeePayer` (lines 629-634): the first account key, if any. -/
def getFeePayer (tx : ParsedTx) : Option String :=
  tx.accountKeys.head?

/-- One token account as consumed by `ownsMint`:
`Number(info?.tokenAmount?.uiAmount ?? 0)` and
`Number(info?.tokenAmount?.decimals ?? 0)`. -/
structure TokenAccount where
  uiAmount : ℚ
  decimals : ℚ
deriving DecidableEq

/-- `ownsMint` (lines 362-374): the two program enumerations (Token and
Token-2022) yield the two account lists; return true as soon as some
account has positive amount and zero decimals. -/
def ownsMint (tokenAccounts token2022Accounts : List TokenAccount) : Bool :=
  (tokenAccounts ++ token2022Accounts).any fun a =>
    decide (0 < a.uiAmount) && decide (a.decimals = 0)

/-- `getTierCounts` (lines 345-352): count ledger entries per tier.  The
`usedMints` record has unique keys (it is only ever written through
property assignment), so counting entries equals the source's key
iteration. -/
def getTierCounts (ledger : Ledger) : TierId → Nat := fun t =>
  (ledger.usedMints.filter (fun p => p.2.tier == t)).length

/-- The caps record built at line 355. -/
def tierCapsRaw (cfg : VerifyConfig) : TierId → ℚ
  | .tier1 => cfg.TIER1_CAP.toQ
  | .tier2 => cfg.TIER2_CAP.toQ
  | .tier3 => cfg.TIER3_CAP.toQ

/-- Bool version of the three cap validations of `getTierCaps`. -/
def capsOk (cfg : VerifyConfig) : Bool :=
  (cfg.TIER1_CAP.isFinite && !cfg.TIER1_CAP.leZero) &&
  (cfg.TIER2_CAP.isFinite && !cfg.TIER2_CAP.leZero) &&
  (cfg.TIER3_CAP.isFinite && !cfg.TIER3_CAP.leZero)

/-- `getTierCaps` (lines 354-360). -/
def getTierCaps (cfg : VerifyConfig) : Except String (TierId → ℚ) :=
  if !cfg.TIER1_CAP.isFinite || cfg.TIER1_CAP.leZero then
    .error "Invalid TIER1_CAP"
  else if !cfg.TIER2_CAP.isFinite || cfg.TIER2_CAP.leZero then
    .error "Invalid TIER2_CAP"
  else if !cfg.TIER3_CAP.isFinite || cfg.TIER3_CAP.leZero then
    .error "Invalid TIER3_CAP"
  else
    .ok (tierCapsRaw cfg)

/-- Whether the first list starts the second. -/
def leadsList : List Char → List Char → Bool
  | [], _ => true
  | _ :: _, [] => false
  | c :: cs, d :: ds => c == d && leadsList cs ds

/-- Whether `pat` occurs somewhere in `l`. -/
def hasSubList (pat : List Char) : List Char → Bool
  | [] => leadsList pat []
  | c :: cs => leadsList pat (c :: cs) || hasSubList pat cs

/-- JS `s.includes(pat)` (used for the lowercased error-message matching
of `isRetryableChainError`). -/
def containsSub (s pat : String) : Bool := hasSubList pat.data s.data

/-- Lowercase a string character-wise (JS `toLowerCase` on ASCII). -/
def lowerStr (s : String) : String := String.mk (s.data.map Char.toLower)

/-- `isRetryableChainError` (lines 602-611). -/
def isRetryableChainError (msg : String) : Bool :=
  let m := lowerStr msg
  containsSub m "block height exceeded" ||
  containsSub m "blockhash not found" ||
  containsSub m "transactionexpiredblockheightexceedederror" ||
  containsSub m "has expired" ||
  containsSub m "could not be confirmed"

/-- Outcome of the RPC-fallback loop of lines 725-763 fetching the parsed
payment transaction: found on some endpoint, found on none (both
not-found branches of lines 757-763 produce the same 404), or an
unclassified RPC error which the loop rethrows. -/
inductive TxFetchOutcome where
  | found (tx : ParsedTx)
  | notFound
  | threw (msg : String)
deriving DecidableEq

/-- Outcomes of all external collaborators consumed by one POST /verify
invocation.  Each `Except` field is the (deterministic, for this one
request) result of the corresponding network or filesystem call;
`withChainRetry` around a call with a fixed outcome collapses to that
outcome, so the bounded retry loops are not modelled separately. -/
structure Env where
  sha256_32 : String → Nat
  parseLedgerJson : String → Option Ledger
  stringifyLedger : Ledger → String
  supabase : Option SupabaseEnv
  txFetch : TxFetchOutcome
  currentSlot : Except String Nat
  ownerAccounts : Except String (List TokenAccount × List TokenAccount)
  treasuryBalanceBefore : Except String Int
  treasuryBalanceAfter : Except String Int
  imageLoad : Except String Unit
  pinataUpload : Except String String
  keypairLoad : Except String Unit
  collectionImageOk : Bool
  collectionUpload : Except String String
  collectionCreate : Except String String
  mintCreate : Except String String
  nowISO : String
  rateLimitOk : Bool
  contentLength : Nat

/-- A JSON scalar appearing in a response body. -/
inductive JsonVal where
  | str (s : String)
  | num (n : Int)
  | bool (b : Bool)
deriving DecidableEq

/-- A `NextResponse.json(body, { status })` value. -/
structure Response where
  status : Nat
  body : List (String × JsonVal)
deriving DecidableEq

/-- Build a JSON response. -/
def jsonResp (status : Nat) (body : List (String × JsonVal)) : Response :=
  { status := status, body := body }

/-- `getPersistentState` (lines 267-279): null without Supabase, else the
defaulted row (a failed read throws). -/
def getPersistentStateP (env : Env) : Pipe (Option PState) :=
  match env.supabase with
  | none => Pipe.pure none
  | some sb => do
      let st ← Pipe.ofExcept sb.stateRead
      Pipe.pure (some st)

/-- `isSignatureUsed` (lines 281-290). -/
def isSignatureUsedP (env : Env) (sig : String) : Pipe Bool :=
  match env.supabase with
  | none => Pipe.pure false
  | some sb => Pipe.ofExcept (sb.sigUsed sig)

/-- `getTierCountsPersistent` (lines 292-302). -/
def getTierCountsPersistentP (env : Env) : Pipe (Option (TierId → Nat)) :=
  match env.supabase with
  | none => Pipe.pure none
  | some sb => do
      let c ← Pipe.ofExcept sb.tierCountsRead
      Pipe.pure (some c)

/-- `persistMint` (lines 304-343): a no-op without Supabase; the three
upserts are collapsed into one write outcome (a failure throws). -/
def persistMintP (env : Env) : Pipe Unit :=
  match env.supabase with
  | none => Pipe.pure ()
  | some sb => Pipe.ofExcept sb.persistWrite

/-- `ensureCollection` (lines 526-571): reuse the env-configured or
ledger-recorded collection, else upload the collection metadata and mint
the collection NFT, persisting its address. -/
def ensureCollection (cfg : VerifyConfig) (env : Env) (ledger : Ledger) :
    Pipe (String × Ledger) :=
  if strTruthy cfg.envCollectionMint then
    let c := cfg.envCollectionMint.getD ""
    let l := { ledger with collectionMint := some c }
    fun s => (.ok (c, l), saveLedger env.stringifyLedger l s)
  else if strTruthy ledger.collectionMint then
    Pipe.pure (ledger.collectionMint.getD "", ledger)
  else if !env.collectionImageOk then
    Pipe.throwErr "Missing collection image at public/gorbage-logo.png"
  else do
    Pipe.modifyState (fun s => { s with uploads := s.uploads + 1 })
    let _metadataUrl ← Pipe.ofExcept env.collectionUpload
    Pipe.modifyState (fun s => { s with mintCalls := s.mintCalls + 1 })
    let addr ← Pipe.ofExcept env.collectionCreate
    let l := { ledger with collectionMint := some addr }
    Pipe.modifyState (saveLedger env.stringifyLedger l)
    Pipe.pure (addr, l)

/-- Lines 790-888 of the POST handler: everything from the treasury
balance snapshot through the roll, cap guard, upload, mint, ledger commit
and success response. -/
def commitPhase (cfg : VerifyConfig) (env : Env) (sig payerStr : String)
    (machine : Machine) (originalMint : String) (ledger : Ledger)
    (persistent : Option PState) : Pipe Response := do
  let balBefore ← Pipe.ofExcept env.treasuryBalanceBefore
  let caps ← Pipe.ofExcept (getTierCaps cfg)
  let persistentCounts ← getTierCountsPersistentP env
  let counts := persistentCounts.getD (getTierCounts ledger)
  let tier ← Pipe.ofExcept
    (rollTier env.sha256_32 cfg.ROLL_SECRET machine sig
      (fun t => (counts t : ℚ)) caps)
  if caps tier ≤ (counts tier : ℚ) then
    Pipe.pure (jsonResp 409 [("error", .str "This tier is sold out")])
  else do
    let effect := pickEffectFromTier env.sha256_32 tier sig
    let _image ← Pipe.ofExcept env.imageLoad
    let baseCount := match persistent with
      | some p => p.mintCount
      | none => ledger.mintCount.getD 0
    let nextCount := baseCount + 1
    Pipe.modifyState (fun s => { s with uploads := s.uploads + 1 })
    let metadataUrl ← Pipe.ofExcept env.pinataUpload
    let _keypair ← Pipe.ofExcept env.keypairLoad
    let syncColl := strTruthy (persistent.bind (fun p => p.collectionMint)) &&
      !strTruthy ledger.collectionMint
    let ledger1 := if syncColl then
        { ledger with collectionMint := persistent.bind (fun p => p.collectionMint) }
      else ledger
    (if syncColl then Pipe.modifyState (saveLedger env.stringifyLedger ledger1)
     else Pipe.pure ())
    let coll ← ensureCollection cfg env ledger1
    let collectionMint := coll.1
    let ledger2 := coll.2
    Pipe.modifyState (fun s => { s with mintCalls := s.mintCalls + 1 })
    let minted ← Pipe.ofExcept env.mintCreate
    let balAfter ← Pipe.ofExcept env.treasuryBalanceAfter
    let mintCostLamports : Int := max 0 (balBefore - balAfter)
    let entry : LedgerEntry := {
      originalMint := originalMint
      mintedMint := minted
      signature := sig
      payer := payerStr
      machine := machine
      tier := tier
      createdAt := env.nowISO }
    let ledger3 := { ledger2 with
      usedMints := recSet ledger2.usedMints originalMint entry
      usedSignatures := recSet ledger2.usedSignatures sig originalMint
      lastMintCostLamports := some (toString mintCostLamports)
      mintCount := some nextCount }
    Pipe.modifyState (saveLedger env.stringifyLedger ledger3)
    persistMintP env
    Pipe.pure (jsonResp 200 [
      ("ok", .bool true),
      ("signature", .str sig),
      ("payer", .str payerStr),
      ("treasury", .str cfg.TREASURY),
      ("machine", .str machine.name),
      ("tier", .str tier.name),
      ("effect", .str effect.primary),
      ("texture", .str effect.texture),
      ("glow", .str effect.glow),
      ("edge", .str effect.edge),
      ("metadataUrl", .str metadataUrl),
      ("minted", .str minted),
      ("collectionMint", .str collectionMint)])

/-- Lines 732-788 of the POST handler: transaction fetch outcome, on-chain
failure check, fee-payer check, slot-age check, payment-instruction check
and ownership check, then hand off to `commitPhase`. -/
def txPhase (cfg : VerifyConfig) (env : Env) (sig payerStr : String)
    (machine : Machine) (originalMint : String) (ledger : Ledger)
    (persistent : Option PState) : Pipe Response :=
  match env.txFetch with
  | .threw e => Pipe.throwErr e
  | .notFound =>
      Pipe.pure (jsonResp 404
        [("error", .str "Transaction not found yet. Try again in a moment.")])
  | .found tx =>
    if tx.metaErr then
      Pipe.pure (jsonResp 400 [("error", .str "Payment transaction failed")])
    else
      match getFeePayer tx with
      | none =>
          Pipe.pure (jsonResp 400
            [("error", .str "Payer is not the fee payer for this transaction")])
      | some fp =>
        if fp ≠ payerStr then
          Pipe.pure (jsonResp 400
            [("error", .str "Payer is not the fee payer for this transaction")])
        else do
          let fresh ← (match tx.slot with
            | some txSlot =>
              if cfg.MAX_TX_SLOT_AGE.isFinite then do
                let currentSlot ← Pipe.ofExcept env.currentSlot
                Pipe.pure
                  (decide (((currentSlot : ℚ) - (txSlot : ℚ)) ≤ cfg.MAX_TX_SLOT_AGE.toQ))
              else Pipe.pure true
            | none => Pipe.pure true)
          if !fresh then
            Pipe.pure (jsonResp 400
              [("error", .str "Transaction too old. Please submit a new payment.")])
          else do
            let price ← Pipe.ofExcept (priceFor cfg machine)
            let expected := toLamports cfg price.toQ
            if !verifyPaymentInstruction tx payerStr cfg.TREASURY expected then
              Pipe.pure (jsonResp 400
                [("error", .str "Payment verification failed")])
            else do
              let accts ← Pipe.ofExcept env.ownerAccounts
              if !ownsMint accts.1 accts.2 then
                Pipe.pure (jsonResp 403
                  [("error", .str "Payer does not own the selected NFT")])
              else
                commitPhase cfg env sig payerStr machine originalMint ledger persistent

/-- The body of the `withLedgerLock` callback (lines 712-889): load the
ledger, read persistent state, reject an already-used signature, then run
the transaction checks. -/
def runLocked (cfg : VerifyConfig) (env : Env) (sig payerStr : String)
    (machine : Machine) (originalMint : String) : Pipe Response := do
  let ledger ← loadLedger env.parseLedgerJson
  let persistent ← getPersistentStateP env
  let used ← isSignatureUsedP env sig
  if used then
    Pipe.pure (jsonResp 409 [("error", .str "Signature already used")])
  else if strTruthy (recGet ledger.usedSignatures sig) then
    Pipe.pure (jsonResp 409 [("error", .str "Signature already used")])
  else
    txPhase cfg env sig payerStr machine originalMint ledger persistent

/-- The request body as parsed by `req.json()` (`invalid` models a JSON
parse failure). -/
structure VerifyBody where
  signature : Option String := none
  payer : Option String := none
  machine : Option String := none
  originalMint : Option String := none
  imageDataUrl : Option String := none
  imageUrl : Option String := none
  name : Option String := none
deriving DecidableEq

/-- Either a parse failure or a parsed body. -/
inductive ReqBody where
  | invalid
  | parsed (b : VerifyBody)
deriving DecidableEq

/-- Process-wide mutable server state: the two in-flight guard sets and
the filesystem/effect state. -/
structure SrvState where
  inFlightSignatures : List String
  inFlightMints : List String
  m : MState
deriving DecidableEq

/-- `Set.prototype.add`: append if absent. -/
def setAdd (s : List String) (x : String) : List String :=
  if x ∈ s then s else s ++ [x]

/-- `Set.prototype.delete`: remove the element. -/
def setDel (s : List String) (x : String) : List String :=
  s.filter (fun y => y ≠ x)

/-- `rateLimitResponse()` from src/app/api/_lib/rateLimit.ts. -/
def rateLimitResponse : Response :=
  jsonResp 429 [("error", .str "Too many requests. Please slow down.")]

/-- The machine-enumeration check of line 697. -/
def parseMachine : String → Option Machine
  | "CONVEYOR" => some .CONVEYOR
  | "COMPACTOR" => some .COMPACTOR
  | "HAZMAT" => some .HAZMAT
  | _ => none

/-- Result of one POST /verify invocation: the HTTP response and the
server state after the handler (including its `finally` block) finished. -/
structure PostOut where
  resp : Response
  state : SrvState

/-- The error mapping of the catch block (lines 890-904). -/
def catchResponse (cfg : VerifyConfig) (e : String) : Response :=
  if isRetryableChainError e then
    jsonResp 503 [("error", .str "Chain confirmation delayed. Keep waiting."),
                  ("detail", .str e)]
  else if cfg.DEBUG_VERIFY then
    jsonResp 500 [("error", .str "Verification failed"), ("detail", .str e)]
  else
    jsonResp 500 [("error", .str "Verification failed. Please try again.")]

/-- The POST handler of src/app/api/verify/route.ts (lines 660-909): rate
limit, body-size check, body parse, field validation, the in-flight dedup
guard, the locked pipeline with its catch mapping, and the `finally`
cleanup of the in-flight sets. -/
def POSTverify (cfg : VerifyConfig) (env : Env) (st : SrvState)
    (body : ReqBody) : PostOut :=
  if !env.rateLimitOk then
    ⟨rateLimitResponse, st⟩
  else if env.contentLength != 0 && cfg.MAX_BODY_BYTES.ltNat env.contentLength then
    ⟨jsonResp 413 [("error", .str "Request too large")], st⟩
  else
    match body with
    | .invalid => ⟨jsonResp 400 [("error", .str "Invalid JSON body")], st⟩
    | .parsed b =>
      let sig := jsTrim (b.signature.getD "")
      let payerStr := jsTrim (b.payer.getD "")
      let machineStr := b.machine.getD ""
      let originalMint := jsTrim (b.originalMint.getD "")
      if sig = "" || !isValidSignature sig then
        ⟨jsonResp 400 [("error", .str "Invalid signature")], st⟩
      else if payerStr = "" || !isValidPublicKey payerStr then
        ⟨jsonResp 400 [("error", .str "Invalid payer")], st⟩
      else if originalMint = "" || !isValidPublicKey originalMint then
        ⟨jsonResp 400 [("error", .str "Invalid originalMint")], st⟩
      else
        match parseMachine machineStr with
        | none => ⟨jsonResp 400 [("error", .str "Invalid machine")], st⟩
        | some machine =>
          if !strTruthy b.imageDataUrl && !strTruthy b.imageUrl then
            ⟨jsonResp 400 [("error", .str "Missing remix image")], st⟩
          else if sig ∈ st.inFlightSignatures ∨ originalMint ∈ st.inFlightMints then
            ⟨jsonResp 409 [("error", .str "This request is already being processed")], st⟩
          else
            let st1 : SrvState := { st with
              inFlightSignatures := setAdd st.inFlightSignatures sig
              inFlightMints := setAdd st.inFlightMints originalMint }
            let r := runLocked cfg env sig payerStr machine originalMint st1.m
            let resp := match r.1 with
              | .ok resp => resp
              | .error e => catchResponse cfg e
            ⟨resp, { st1 with
              m := r.2
              inFlightSignatures := setDel st1.inFlightSignatures sig
              inFlightMints := setDel st1.inFlightMints originalMint }⟩

/-- Formalization of the spec's amount-disclosure requirement ("the
expected vs. actual amounts disclosed"): some response-body field carries
the expected amount and some field carries the actual amount. -/
def disclosesAmounts (r : Response) (expected actual : Int) : Prop :=
  (∃ e ∈ r.body, e.2 = JsonVal.num expected) ∧
  (∃ e ∈ r.body, e.2 = JsonVal.num actual)

/-- Formalization of the spec's ownership contract ("the owner currently
holds exactly one non-fractional unit of that asset"): some enumerated
token account holds token amount exactly 1 with 0 decimals. -/
def holdsExactlyOneUnit (tokenAccounts token2022Accounts : List TokenAccount) :
    Prop :=
  ∃ a ∈ tokenAccounts ++ token2022Accounts, a.uiAmount = 1 ∧ a.decimals = 0

instance (l1 l2 : List TokenAccount) : Decidable (holdsExactlyOneUnit l1 l2) :=
  inferInstanceAs (Decidable (∃ a ∈ l1 ++ l2, a.uiAmount = 1 ∧ a.decimals = 0))

instance (r : Response) (expected actual : Int) :
    Decidable (disclosesAmounts r expected actual) :=
  inferInstanceAs (Decidable ((∃ e ∈ r.body, e.2 = JsonVal.num expected) ∧
    (∃ e ∈ r.body, e.2 = JsonVal.num actual)))

/-- Validation facts about one parsed request: the trimmed fields, their
format checks, the machine parse, the image presence, and absence from
the in-flight guard sets (the conditions of lines 692-709 passing). -/
def ValidRequest (st : SrvState) (b : VerifyBody) (sig payer mint : String)
    (machine : Machine) : Prop :=
  jsTrim (b.signature.getD "") = sig ∧
  jsTrim (b.payer.getD "") = payer ∧
  jsTrim (b.originalMint.getD "") = mint ∧
  parseMachine (b.machine.getD "") = some machine ∧
  isValidSignature sig = true ∧
  isValidPublicKey payer = true ∧
  isValidPublicKey mint = true ∧
  (strTruthy b.imageDataUrl || strTruthy b.imageUrl) = true ∧
  sig ∉ st.inFlightSignatures ∧
  mint ∉ st.inFlightMints

/-- Environment facts for a request that is not rate limited, parses its
ledger file to `l`, has no Supabase configured, and whose signature is
not yet recorded in the ledger. -/
def LoadsCleanly (env : Env) (m : MState) (raw : String) (l : Ledger)
    (sig : String) : Prop :=
  env.rateLimitOk = true ∧
  env.contentLength = 0 ∧
  m.file = some raw ∧
  env.parseLedgerJson raw = some l ∧
  env.supabase = none ∧
  strTruthy (recGet l.usedSignatures sig) = false

/-- Environment facts under which the transaction checks of lines 732-788
all pass for payer `payer` and machine `machine`: the transaction `tx` is
found, succeeded on-chain, is fee-paid by `payer`, carries no slot (so
the age bound is skipped), pays at least the machine price to the
treasury, and `payer` owns the source NFT per the enumerated accounts. -/
def TxPasses (cfg : VerifyConfig) (env : Env) (tx : ParsedTx)
    (a1 a2 : List TokenAccount) (payer : String) (machine : Machine) : Prop :=
  env.txFetch = .found tx ∧
  tx.metaErr = false ∧
  getFeePayer tx = some payer ∧
  tx.slot = none ∧
  priceFor cfg machine = .ok (priceRaw cfg machine) ∧
  verifyPaymentInstruction tx payer cfg.TREASURY
    (toLamports cfg (priceRaw cfg machine).toQ) = true ∧
  env.ownerAccounts = .ok (a1, a2) ∧
  ownsMint a1 a2 = true

/-- Sample fixtures used by the concrete evaluations below. -/
def sampleSig : String := String.mk (List.replicate 85 '1')

/-- A second, distinct valid signature. -/
def sampleSig2 : String := String.mk (List.replicate 85 '2')

/-- A third distinct valid signature. -/
def sampleSig3 : String := String.mk (List.replicate 85 '3')

/-- A fourth distinct valid signature. -/
def sampleSig4 : String := String.mk (List.replicate 85 '4')

/-- A valid payer address. -/
def samplePayer : String := String.mk (List.replicate 32 'A')

/-- A valid source-NFT mint address. -/
def sampleMint : String := String.mk (List.replicate 32 'B')

/-- A second valid source-NFT mint address. -/
def sampleMint2 : String := String.mk (List.replicate 32 'C')

/-- A third valid source-NFT mint address. -/
def sampleMint3 : String := String.mk (List.replicate 32 'D')

/-- The treasury address. -/
def sampleTreasury : String := String.mk (List.replicate 32 'T')

/-- A fully valid configuration with the default prices and caps. -/
def sampleCfg : VerifyConfig := {
  TREASURY := sampleTreasury
  PINATA_JWT := "jwt"
  MINT_AUTHORITY_KEYPAIR := "keypair.json"
  ROLL_SECRET := "SECRETSECRETSECRETSECRETSECRETSECRET"
  GOR_LAMPORTS := .fin 1000000000
  PRICE_CONVEYOR := .fin 1
  PRICE_COMPACTOR := .fin 3500
  PRICE_HAZMAT := .fin 4500
  TIER1_CAP := .fin 3000
  TIER2_CAP := .fin 999
  TIER3_CAP := .fin 444
  MAX_BODY_BYTES := .fin 8388608
  MAX_IMAGE_BYTES := .fin 5242880
  MAX_TX_SLOT_AGE := .fin 300
  DEBUG_VERIFY := false
  envCollectionMint := none }

/-- A committed ledger entry fixture. -/
def mkEntry (mint minted sig : String) (tier : TierId) : LedgerEntry :=
  { originalMint := mint, mintedMint := minted, signature := sig,
    payer := samplePayer, machine := .CONVEYOR, tier := tier,
    createdAt := "t0" }

/-- A ledger that already committed a remix of `sampleMint` under
`sampleSig`. -/
def ledger0 : Ledger := {
  usedMints := [(sampleMint, mkEntry sampleMint "M1" sampleSig .tier1)]
  usedSignatures := [(sampleSig, sampleMint)]
  mintCount := some 1
  collectionMint := some "COLL" }

/-- A successful payment transaction: fee-paid by `samplePayer`, no slot,
one direct system transfer of 1 GOR (1e9 base units) to the treasury. -/
def goodTx : ParsedTx := {
  metaErr := false
  accountKeys := [samplePayer]
  slot := none
  instructions := [{ program := "system", parsedType := "transfer",
                     hasInfo := true, source := samplePayer,
                     destination := sampleTreasury,
                     lamports := 1000000000 }] }

/-- An environment where every collaborator succeeds: the ledger file
"L0" parses to `ledger0`, the digest function is constantly 0, Supabase
is absent, and the payment/ownership reads pass. -/
def sampleEnv : Env := {
  sha256_32 := fun _ => 0
  parseLedgerJson := fun raw => if raw = "L0" then some ledger0 else none
  stringifyLedger := fun _ => "L1"
  supabase := none
  txFetch := .found goodTx
  currentSlot := .ok 100
  ownerAccounts := .ok ([{ uiAmount := 1, decimals := 0 }], [])
  treasuryBalanceBefore := .ok 0
  treasuryBalanceAfter := .ok 0
  imageLoad := .ok ()
  pinataUpload := .ok "ipfs://meta"
  keypairLoad := .ok ()
  collectionImageOk := true
  collectionUpload := .ok "ipfs://cmeta"
  collectionCreate := .ok "COLLNEW"
  mintCreate := .ok "MINTED2"
  nowISO := "t1"
  rateLimitOk := true
  contentLength := 0 }

/-- Initial server state holding the ledger file "L0". -/
def st0 : SrvState := {
  inFlightSignatures := []
  inFlightMints := []
  m := { file := some "L0", backups := [], uploads := 0, mintCalls := 0 } }

/-- A request that re-submits the already-committed `sampleSig`. -/
def body1 : VerifyBody := {
  signature := some sampleSig
  payer := some samplePayer
  machine := some "CONVEYOR"
  originalMint := some sampleMint
  imageDataUrl := some "data:image/png;base64,AAAA" }

/-- A request with a fresh signature naming the already-remixed
`sampleMint`. -/
def body2 : VerifyBody := {
  signature := some sampleSig2
  payer := some samplePayer
  machine := some "CONVEYOR"
  originalMint := some sampleMint
  imageDataUrl := some "data:image/png;base64,AAAA" }

/-- Configuration with every tier cap set to 1. -/
def capOneCfg : VerifyConfig :=
  { sampleCfg with
    TIER1_CAP := .fin 1
    TIER2_CAP := .fin 1
    TIER3_CAP := .fin 1 }

/-- A ledger whose tier3 allocation (cap 1 under `capOneCfg`) is consumed. -/
def tier3FullLedger : Ledger := {
  usedMints := [(sampleMint2, mkEntry sampleMint2 "M2" sampleSig3 .tier3)]
  usedSignatures := [(sampleSig3, sampleMint2)]
  mintCount := some 1
  collectionMint := some "COLL" }

/-- A ledger with every tier at cap 1. -/
def allFullLedger : Ledger := {
  usedMints := [(sampleMint, mkEntry sampleMint "M1" sampleSig .tier1),
                (sampleMint2, mkEntry sampleMint2 "M2" sampleSig3 .tier2),
                (sampleMint3, mkEntry sampleMint3 "M3" sampleSig4 .tier3)]
  usedSignatures := [(sampleSig, sampleMint), (sampleSig3, sampleMint2),
                     (sampleSig4, sampleMint3)]
  mintCount := some 3
  collectionMint := some "COLL" }

/-- Environment whose digest is constantly `0xffffffff` (the maximal
32-bit value, driving the roll to the last tier) and whose ledger file
parses to `tier3FullLedger`. -/
def maxHashEnv : Env := { sampleEnv with
  sha256_32 := fun _ => 0xffffffff
  parseLedgerJson := fun raw => if raw = "L0" then some tier3FullLedger else none }

/-- Environment whose ledger file parses to `allFullLedger`. -/
def allFullEnv : Env := { sampleEnv with
  parseLedgerJson := fun raw => if raw = "L0" then some allFullLedger else none }

/-- Environment whose ledger file never parses (corruption). -/
def corruptEnv : Env := { sampleEnv with
  parseLedgerJson := fun _ => none }

/-- A payment transaction one base unit short of the 1-GOR price. -/
def shortTx : ParsedTx := { goodTx with
  instructions := [{ program := "system", parsedType := "transfer",
                     hasInfo := true, source := samplePayer,
                     destination := sampleTreasury,
                     lamports := 999999999 }] }

/-- Environment serving the one-unit-short payment transaction. -/
def shortPayEnv : Env := { sampleEnv with txFetch := .found shortTx }

/-- A request with the fresh signature `sampleSig2` naming the fresh
mint `sampleMint3`. -/
def body3 : VerifyBody := { body2 with originalMint := some sampleMint3 }

/-! ## Helper lemmas -/

/-- Monadic bind on `Pipe` is `Pipe.bind`. -/
theorem pipeBindDef {α β : Type} (x : Pipe α) (f : α → Pipe β) :
    x >>= f = Pipe.bind x f := rfl

/-- Monadic pure on `Pipe` is `Pipe.pure`. -/
theorem pipePureDef {α : Type} (a : α) : (pure a : Pipe α) = Pipe.pure a := rfl

/-- A string passing `isValidSignature` is nonempty. -/
theorem validSig_ne_empty {s : String} (h : isValidSignature s = true) :
    s ≠ "" := by
  intro he
  subst he
  simp [isValidSignature] at h

/-- A string passing `isValidPublicKey` is nonempty. -/
theorem validKey_ne_empty {s : String} (h : isValidPublicKey s = true) :
    s ≠ "" := by
  intro he
  subst he
  simp [isValidPublicKey] at h

/-- Deleting a freshly added element restores the original guard set. -/
theorem setDel_setAdd {s : List String} {x : String} (h : x ∉ s) :
    setDel (setAdd s x) x = s := by
  unfold setAdd setDel
  rw [if_neg h, List.filter_append]
  have h1 : s.filter (fun y => decide ¬(y = x)) = s := by
    refine List.filter_eq_self.mpr ?_
    intro a ha
    simp only [decide_eq_true_eq]
    exact fun e => h (e ▸ ha)
  have h2 : [x].filter (fun y => decide ¬(y = x)) = [] := by simp
  simp only [ne_eq] at h1 h2 ⊢
  rw [h1, h2, List.append_nil]

/-- `getTierCounts` ignores the `mintCount` field. -/
theorem getTierCounts_mintCount (l : Ledger) (x : Option Nat) :
    getTierCounts { l with mintCount := x } = getTierCounts l := rfl

/-- When the cap validation passes, `getTierCaps` returns the caps record. -/
theorem getTierCaps_of_capsOk {cfg : VerifyConfig} (h : capsOk cfg = true) :
    getTierCaps cfg = .ok (tierCapsRaw cfg) := by
  simp only [capsOk, Bool.and_eq_true, Bool.not_eq_true'] at h
  obtain ⟨⟨⟨f1, z1⟩, f2, z2⟩, f3, z3⟩ := h
  simp [getTierCaps, f1, z1, f2, z2, f3, z3]

/-- With every tier at or above its cap, `rollTier` throws the sold-out
error. -/
theorem rollTier_soldOut (h : String → Nat) (secret : String)
    (machine : Machine) (sig : String) (counts caps : TierId → ℚ)
    (hcap : ∀ t, caps t ≤ counts t) :
    rollTier h secret machine sig counts caps =
      .error "All tiers are sold out." := by
  have w0 : ∀ t, ¬(counts t < caps t) := fun t => not_lt.2 (hcap t)
  unfold rollTier
  simp only [if_neg (w0 .tier1), if_neg (w0 .tier2), if_neg (w0 .tier3)]
  norm_num

/-- The sold-out message is not a retryable chain error. -/
theorem soldOut_not_retryable :
    isRetryableChainError "All tiers are sold out." = false := by decide

/-- The corruption message is not a retryable chain error. -/
theorem corrupt_not_retryable :
    isRetryableChainError "Ledger corrupted - minting halted for safety" =
      false := by decide

/-- A non-retryable thrown error maps to HTTP 500 (with or without the
debug detail). -/
theorem catchResponse_status {cfg : VerifyConfig} {e : String}
    (h : isRetryableChainError e = false) :
    (catchResponse cfg e).status = 500 := by
  cases hd : cfg.DEBUG_VERIFY <;> simp [catchResponse, h, hd, jsonResp]

/-- Under passing validation, the POST handler runs the locked pipeline on
the current file state, maps a throw through the catch block, and the
`finally` cleanup restores the in-flight sets. -/
theorem POSTverify_locked (cfg : VerifyConfig) (env : Env) (st : SrvState)
    (b : VerifyBody) (sig payer mint : String) (machine : Machine)
    (hv : ValidRequest st b sig payer mint machine)
    (hrl : env.rateLimitOk = true) (hcl : env.contentLength = 0) :
    POSTverify cfg env st (.parsed b) =
      ⟨(match (runLocked cfg env sig payer machine mint st.m).1 with
         | .ok r => r
         | .error e => catchResponse cfg e),
       { st with m := (runLocked cfg env sig payer machine mint st.m).2 }⟩ := by
  obtain ⟨h1, h2, h3, h4, h5, h6, h7, h8, h9, h10⟩ := hv
  have hs : sig ≠ "" := validSig_ne_empty h5
  have hp : payer ≠ "" := validKey_ne_empty h6
  have hm : mint ≠ "" := validKey_ne_empty h7
  have h8' : (!strTruthy b.imageDataUrl && !strTruthy b.imageUrl) = false := by
    cases hA : strTruthy b.imageDataUrl <;> cases hB : strTruthy b.imageUrl <;>
      rw [hA, hB] at h8 <;> simp_all
  simp only [POSTverify, hrl, hcl, h1, h2, h3, h4]
  simp only [h5, h6, h7, h8, h8', hs, hp, hm, h9, h10, setDel_setAdd h9,
    setDel_setAdd h10, Bool.not_true, Bool.or_false, bne_self_eq_false,
    Bool.false_and, Bool.not_false, decide_eq_false hs, decide_eq_false hp,
    decide_eq_false hm, Bool.false_eq_true, if_false, eq_self_iff_true,
    not_false_iff, if_true, ite_false, ite_true]
  simp [h9, h10]

/-- With a clean ledger load, no Supabase, and an unused signature, the
locked pipeline proceeds to the transaction checks with the normalized
parsed ledger, leaving the state untouched. -/
theorem runLocked_clean (cfg : VerifyConfig) (env : Env)
    (sig payer mint : String) (machine : Machine) (m : MState)
    (raw : String) (l : Ledger)
    (hfile : m.file = some raw) (hparse : env.parseLedgerJson raw = some l)
    (hsb : env.supabase = none)
    (hnu : strTruthy (recGet l.usedSignatures sig) = false) :
    runLocked cfg env sig payer machine mint m =
      txPhase cfg env sig payer machine mint
        { l with mintCount := some (l.mintCount.getD 0) } none m := by
  simp only [runLocked, pipeBindDef, Pipe.bind, Pipe.pure, loadLedger, hfile,
    hparse, getPersistentStateP, hsb, isSignatureUsedP, pipePureDef, hnu,
    Bool.false_eq_true, if_false, ite_false, Bool.ite_eq_false]

/-- With a clean load but an already-recorded signature, the locked
pipeline rejects with the 409 conflict, leaving the state untouched. -/
theorem runLocked_sigUsed (cfg : VerifyConfig) (env : Env)
    (sig payer mint : String) (machine : Machine) (m : MState)
    (raw : String) (l : Ledger)
    (hfile : m.file = some raw) (hparse : env.parseLedgerJson raw = some l)
    (hsb : env.supabase = none)
    (hu : strTruthy (recGet l.usedSignatures sig) = true) :
    runLocked cfg env sig payer machine mint m =
      (.ok (jsonResp 409 [("error", .str "Signature already used")]), m) := by
  simp only [runLocked, pipeBindDef, Pipe.bind, Pipe.pure, loadLedger, hfile,
    hparse, getPersistentStateP, hsb, isSignatureUsedP, pipePureDef, hu,
    Bool.false_eq_true, if_false, ite_false, ite_true]

/-- With a corrupted (unparseable) ledger file, the locked pipeline backs
the raw contents up and throws, touching nothing else. -/
theorem runLocked_corrupt (cfg : VerifyConfig) (env : Env)
    (sig payer mint : String) (machine : Machine) (m : MState)
    (raw : String)
    (hfile : m.file = some raw) (hparse : env.parseLedgerJson raw = none) :
    runLocked cfg env sig payer machine mint m =
      (.error "Ledger corrupted - minting halted for safety",
       { m with backups := m.backups ++ [raw] }) := by
  simp only [runLocked, pipeBindDef, Pipe.bind, Pipe.pure, loadLedger, hfile,
    hparse, backupCorruptedLedger]

/-- When every transaction check passes, the transaction phase hands off
to the commit phase, leaving the state untouched. -/
theorem txPhase_passes (cfg : VerifyConfig) (env : Env)
    (sig payer mint : String) (machine : Machine) (ledger : Ledger)
    (persistent : Option PState) (m : MState) (tx : ParsedTx)
    (a1 a2 : List TokenAccount)
    (htx : TxPasses cfg env tx a1 a2 payer machine) :
    txPhase cfg env sig payer machine mint ledger persistent m =
      commitPhase cfg env sig payer machine mint ledger persistent m := by
  obtain ⟨hfound, herr, hfp, hslot, hpr, hpay, hacc, hown⟩ := htx
  simp only [txPhase, hfound, herr, hfp, hslot, hpr, hpay, hacc, hown,
    pipeBindDef, Pipe.bind, Pipe.pure, Pipe.ofExcept, pipePureDef,
    Bool.false_eq_true, if_false, ite_false, ite_true, Bool.not_true,
    ne_eq, not_true_eq_false]

/-- When the transaction checks pass up to the payment-instruction check
but the payment check fails, the transaction phase rejects with the
generic 400 response, leaving the state untouched. -/
theorem txPhase_paymentRejected (cfg : VerifyConfig) (env : Env)
    (sig payer mint : String) (machine : Machine) (ledger : Ledger)
    (persistent : Option PState) (m : MState) (tx : ParsedTx)
    (hfound : env.txFetch = .found tx)
    (herr : tx.metaErr = false)
    (hfp : getFeePayer tx = some payer)
    (hslot : tx.slot = none)
    (hpr : priceFor cfg machine = .ok (priceRaw cfg machine))
    (hpay : verifyPaymentInstruction tx payer cfg.TREASURY
      (toLamports cfg (priceRaw cfg machine).toQ) = false) :
    txPhase cfg env sig payer machine mint ledger persistent m =
      (.ok (jsonResp 400 [("error", .str "Payment verification failed")]), m) := by
  simp only [txPhase, hfound, herr, hfp, hslot, hpr, hpay,
    pipeBindDef, Pipe.bind, Pipe.pure, Pipe.ofExcept, pipePureDef,
    Bool.false_eq_true, if_false, ite_false, ite_true, Bool.not_true,
    Bool.not_false, ne_eq, not_true_eq_false]

/-- When the rolled tier is already at or over its cap, the commit phase
rejects with the sold-out conflict and commits nothing. -/
theorem commitPhase_capReject (cfg : VerifyConfig) (env : Env)
    (sig payer mint : String) (machine : Machine) (ledger : Ledger)
    (persistent : Option PState) (m : MState) (bal : Int) (t : TierId)
    (hbal : env.treasuryBalanceBefore = .ok bal)
    (hcaps : capsOk cfg = true)
    (hsb : env.supabase = none)
    (hroll : rollTier env.sha256_32 cfg.ROLL_SECRET machine sig
        (fun u => ((getTierCounts ledger u : ℚ))) (tierCapsRaw cfg) = .ok t)
    (hcap : tierCapsRaw cfg t ≤ (getTierCounts ledger t : ℚ)) :
    commitPhase cfg env sig payer machine mint ledger persistent m =
      (.ok (jsonResp 409 [("error", .str "This tier is sold out")]), m) := by
  simp only [commitPhase, pipeBindDef, Pipe.bind, Pipe.ofExcept, Pipe.pure,
    pipePureDef, hbal, getTierCaps_of_capsOk hcaps, getTierCountsPersistentP,
    hsb, Option.getD_none, hroll, hcap, if_true, ite_true]

/-- When every tier is at or over its cap, the commit phase throws the
sold-out error before any upload or mint attempt, and commits nothing. -/
theorem commitPhase_soldOut (cfg : VerifyConfig) (env : Env)
    (sig payer mint : String) (machine : Machine) (ledger : Ledger)
    (persistent : Option PState) (m : MState) (bal : Int)
    (hbal : env.treasuryBalanceBefore = .ok bal)
    (hcaps : capsOk cfg = true)
    (hsb : env.supabase = none)
    (hall : ∀ u, tierCapsRaw cfg u ≤ (getTierCounts ledger u : ℚ)) :
    commitPhase cfg env sig payer machine mint ledger persistent m =
      (.error "All tiers are sold out.", m) := by
  have hr := rollTier_soldOut env.sha256_32 cfg.ROLL_SECRET machine sig
    (fun u => ((getTierCounts ledger u : ℚ))) (tierCapsRaw cfg) hall
  simp only [commitPhase, pipeBindDef, Pipe.bind, Pipe.ofExcept, Pipe.pure,
    pipePureDef, hbal, getTierCaps_of_capsOk hcaps, getTierCountsPersistentP,
    hsb, Option.getD_none, hr]

/-! ## Claim theorems -/

/-- C1: the claim states that once `usedMints[originalMint]` records a
remix, a later POST /verify naming the same `originalMint` with a fresh
valid signature is rejected as already consumed and writes no second
entry.  The code has no such check: evaluated at a concrete state whose
ledger already records a remix of `sampleMint`, a second request with the
fresh signature `sampleSig2` for the same `sampleMint` is accepted (HTTP
200), performs a fresh upload and a fresh mint submission, and rewrites
the ledger — the handler checks only `usedSignatures` (lines 715-720) and
the transient in-flight set, never `ledger.usedMints`. -/
theorem C1_second_remix_for_same_source_is_minted :
    recGet ledger0.usedMints sampleMint =
      some (mkEntry sampleMint "M1" sampleSig .tier1) ∧
    strTruthy (recGet ledger0.usedSignatures sampleSig2) = false ∧
    (POSTverify sampleCfg sampleEnv st0 (.parsed body2)).resp.status = 200 ∧
    ("ok", JsonVal.bool true) ∈
      (POSTverify sampleCfg sampleEnv st0 (.parsed body2)).resp.body ∧
    ("minted", JsonVal.str "MINTED2") ∈
      (POSTverify sampleCfg sampleEnv st0 (.parsed body2)).resp.body ∧
    (POSTverify sampleCfg sampleEnv st0 (.parsed body2)).state.m.mintCalls =
      st0.m.mintCalls + 1 ∧
    (POSTverify sampleCfg sampleEnv st0 (.parsed body2)).state.m.uploads =
      st0.m.uploads + 1 ∧
    (POSTverify sampleCfg sampleEnv st0 (.parsed body2)).state.m.file ≠
      st0.m.file := by decide

/-- C2: a verify request whose rolled tier already has
`counts[tier] >= caps[tier]` — for any possible output of `rollTier`,
over all digest values — is rejected with the sold-out conflict and
commits nothing: the ledger file, the backup list and the upload/mint
counters are all left exactly as they were. -/
theorem C2_tier_cap_guard_rejects_and_never_commits (cfg : VerifyConfig)
    (env : Env) (st : SrvState) (b : VerifyBody)
    (sig payer mint raw : String) (machine : Machine) (l : Ledger)
    (tx : ParsedTx) (a1 a2 : List TokenAccount) (bal : Int) (t : TierId)
    (hv : ValidRequest st b sig payer mint machine)
    (hl : LoadsCleanly env st.m raw l sig)
    (htx : TxPasses cfg env tx a1 a2 payer machine)
    (hbal : env.treasuryBalanceBefore = .ok bal)
    (hcaps : capsOk cfg = true)
    (hroll : rollTier env.sha256_32 cfg.ROLL_SECRET machine sig
        (fun u => ((getTierCounts l u : ℚ))) (tierCapsRaw cfg) = .ok t)
    (hcap : tierCapsRaw cfg t ≤ (getTierCounts l t : ℚ)) :
    (POSTverify cfg env st (.parsed b)).resp =
      jsonResp 409 [("error", .str "This tier is sold out")] ∧
    (POSTverify cfg env st (.parsed b)).state.m = st.m := by
  obtain ⟨hrl, hcl, hfile, hparse, hsb, hnu⟩ := hl
  have hpost := POSTverify_locked cfg env st b sig payer mint machine hv hrl hcl
  have e1 := runLocked_clean cfg env sig payer mint machine st.m raw l
    hfile hparse hsb hnu
  have e2 := txPhase_passes cfg env sig payer mint machine
    { l with mintCount := some (l.mintCount.getD 0) } none st.m tx a1 a2 htx
  have e3 := commitPhase_capReject cfg env sig payer mint machine
    { l with mintCount := some (l.mintCount.getD 0) } none st.m bal t
    hbal hcaps hsb hroll hcap
  rw [hpost, e1, e2, e3]
  exact ⟨rfl, rfl⟩

/-- C3 as stated is false: the rejection of a one-base-unit-short payment
does not disclose the expected and actual amounts.  At a concrete input
whose transaction transfers 999999999 of the expected 1000000000 base
units, payment verification fails and the response is the constant
`{"error": "Payment verification failed"}` carrying no numeric field at
all. -/
theorem C3_counterexample_no_amount_disclosure :
    toLamports sampleCfg (priceRaw sampleCfg .CONVEYOR).toQ = 1000000000 ∧
    verifyPaymentInstruction shortTx samplePayer sampleTreasury
      1000000000 = false ∧
    (POSTverify sampleCfg shortPayEnv st0 (.parsed body2)).resp =
      jsonResp 400 [("error", .str "Payment verification failed")] ∧
    ¬ disclosesAmounts
      (POSTverify sampleCfg shortPayEnv st0 (.parsed body2)).resp
      1000000000 999999999 := by decide

/-- C3 (amended): a transaction containing a direct system-program
transfer from the claimed payer to the treasury of exactly the expected
base-unit amount passes payment verification; one a single base unit
short is rejected with the constant 400 response
`{"error": "Payment verification failed"}`, which discloses no amounts,
and the ledger is unchanged. -/
theorem C3_exact_amount_passes_short_rejected_generic (cfg : VerifyConfig)
    (env : Env) (st : SrvState) (b : VerifyBody)
    (sig payer mint raw : String) (machine : Machine) (l : Ledger)
    (txE txS : ParsedTx) (n : Nat)
    (hexp : toLamports cfg (priceRaw cfg machine).toQ = (n : Int))
    (hn : 1 ≤ n)
    (hE : txE.instructions =
      [{ program := "system", parsedType := "transfer", hasInfo := true,
         source := payer, destination := cfg.TREASURY, lamports := n }])
    (hS : txS.instructions =
      [{ program := "system", parsedType := "transfer", hasInfo := true,
         source := payer, destination := cfg.TREASURY, lamports := n - 1 }])
    (hv : ValidRequest st b sig payer mint machine)
    (hl : LoadsCleanly env st.m raw l sig)
    (hfound : env.txFetch = .found txS)
    (herr : txS.metaErr = false)
    (hfp : getFeePayer txS = some payer)
    (hslot : txS.slot = none)
    (hpr : priceFor cfg machine = .ok (priceRaw cfg machine)) :
    verifyPaymentInstruction txE payer cfg.TREASURY
      (toLamports cfg (priceRaw cfg machine).toQ) = true ∧
    verifyPaymentInstruction txS payer cfg.TREASURY
      (toLamports cfg (priceRaw cfg machine).toQ) = false ∧
    (POSTverify cfg env st (.parsed b)).resp =
      jsonResp 400 [("error", .str "Payment verification failed")] ∧
    (∀ e a : Int, ¬ disclosesAmounts (POSTverify cfg env st (.parsed b)).resp e a) ∧
    (POSTverify cfg env st (.parsed b)).state.m = st.m := by
  have hver : verifyPaymentInstruction txE payer cfg.TREASURY
      (toLamports cfg (priceRaw cfg machine).toQ) = true := by
    simp [verifyPaymentInstruction, hE, hexp]
  have hver2 : verifyPaymentInstruction txS payer cfg.TREASURY
      (toLamports cfg (priceRaw cfg machine).toQ) = false := by
    simp [verifyPaymentInstruction, hS, hexp]
    omega
  obtain ⟨hrl, hcl, hfile, hparse, hsb, hnu⟩ := hl
  have hpost := POSTverify_locked cfg env st b sig payer mint machine hv hrl hcl
  have e1 := runLocked_clean cfg env sig payer mint machine st.m raw l
    hfile hparse hsb hnu
  have e2 := txPhase_paymentRejected cfg env sig payer mint machine
    { l with mintCount := some (l.mintCount.getD 0) } none st.m txS
    hfound herr hfp hslot hpr hver2
  rw [hpost, e1, e2]
  refine ⟨hver, hver2, rfl, ?_, rfl⟩
  intro e a hd
  simp [disclosesAmounts, jsonResp] at hd

/-- C4 as stated is false: `rollTier` is not a function of the
(signature, machine) pair alone.  With the identical signature "sig",
machine CONVEYOR and digest function, a call observing all-zero consumed
counts rolls tier1, while a call observing tier1 at its cap rolls tier2. -/
theorem C4_counterexample_roll_depends_on_counts :
    rollTier (fun _ => 0) "s" .CONVEYOR "sig" (fun _ => 0) (fun _ => 10) =
      .ok .tier1 ∧
    rollTier (fun _ => 0) "s" .CONVEYOR "sig"
      (fun t => match t with | .tier1 => 10 | _ => 0) (fun _ => 10) =
      .ok .tier2 := by decide

/-- C4 (amended): `rollTier` is deterministic in its full inputs — it
depends on the digest function only through the digest of the rolled
string, so two calls with the same (signature, machine, secret, counts,
caps) and agreeing digests return the identical tier; calls observing
different consumed counts may differ. -/
theorem C4_roll_deterministic_in_full_inputs (h1 h2 : String → Nat)
    (secret : String) (machine : Machine) (sig : String)
    (counts caps : TierId → ℚ)
    (hagree : h1 (rollInput machine sig secret) =
      h2 (rollInput machine sig secret)) :
    rollTier h1 secret machine sig counts caps =
      rollTier h2 secret machine sig counts caps := by
  unfold rollTier
  rw [hagree]

/-- Witness for C4: the determinism theorem applied at a concrete input. -/
theorem C4_roll_deterministic_witness :
    (fun _ : String => 0) (rollInput .CONVEYOR "sig" "s") =
      (fun _ : String => 42 - 42) (rollInput .CONVEYOR "sig" "s") ∧
    rollTier (fun _ => 0) "s" .CONVEYOR "sig" (fun _ => 0) (fun _ => 10) =
      rollTier (fun _ => 42 - 42) "s" .CONVEYOR "sig" (fun _ => 0)
        (fun _ => 10) :=
  ⟨by decide,
   C4_roll_deterministic_in_full_inputs (fun _ => 0) (fun _ => 42 - 42)
     "s" .CONVEYOR "sig" (fun _ => 0) (fun _ => 10) (by decide)⟩

/-- C5 as stated is false: `ownsMint` does not require holding exactly
one unit.  An account holding two units with zero decimals makes
`ownsMint` return true although the spec predicate ("exactly one
non-fractional unit") fails. -/
theorem C5_counterexample_two_units_accepted :
    ownsMint [{ uiAmount := 2, decimals := 0 }] [] = true ∧
    ¬ holdsExactlyOneUnit [{ uiAmount := 2, decimals := 0 }] [] := by decide

/-- C5 (amended): `ownsMint` returns true iff some token account
enumerated across the Token and Token-2022 programs holds a positive
amount with zero decimals. -/
theorem C5_ownsMint_iff_positive_zero_decimals
    (l1 l2 : List TokenAccount) :
    ownsMint l1 l2 = true ↔
      ∃ a ∈ l1 ++ l2, 0 < a.uiAmount ∧ a.decimals = 0 := by
  simp only [ownsMint, List.any_eq_true, Bool.and_eq_true, decide_eq_true_eq,
    List.mem_append]

/-- C6 as stated is false: a non-positive configured price does not cause
a fatal configuration error at module initialization.  With
PRICE_COMPACTOR = -5 and every other setting valid, the verify module
initializes successfully and the error is first raised inside `priceFor`
when a COMPACTOR request is priced. -/
theorem C6_counterexample_bad_price_passes_init :
    verifyModuleInit { sampleCfg with PRICE_COMPACTOR := .fin (-5) } =
      .ok () ∧
    priceFor { sampleCfg with PRICE_COMPACTOR := .fin (-5) } .COMPACTOR =
      .error "Invalid machine price config" := by decide

/-- C6 (amended): a non-positive or non-finite configured price for a
machine is never checked at module initialization — `verifyModuleInit`
is unchanged by any choice of the three prices — and instead raises the
per-request error "Invalid machine price config" inside `priceFor` when
that machine is priced in a handler. -/
theorem C6_bad_price_is_per_request (cfg : VerifyConfig) (machine : Machine)
    (p1 p2 p3 : JsNum)
    (hbad : (!(priceRaw cfg machine).isFinite ||
      (priceRaw cfg machine).leZero) = true) :
    priceFor cfg machine = .error "Invalid machine price config" ∧
    verifyModuleInit { cfg with
      PRICE_CONVEYOR := p1
      PRICE_COMPACTOR := p2
      PRICE_HAZMAT := p3 } = verifyModuleInit cfg := by
  exact ⟨by simp [priceFor, hbad], rfl⟩

/-- Witness for C6: the amended theorem applied at the concrete bad
configuration. -/
theorem C6_bad_price_witness :
    (!(priceRaw { sampleCfg with PRICE_COMPACTOR := .fin (-5) } .COMPACTOR).isFinite ||
      (priceRaw { sampleCfg with PRICE_COMPACTOR := .fin (-5) } .COMPACTOR).leZero) = true ∧
    priceFor { sampleCfg with PRICE_COMPACTOR := .fin (-5) } .COMPACTOR =
      .error "Invalid machine price config" ∧
    verifyModuleInit { { sampleCfg with PRICE_COMPACTOR := .fin (-5) } with
      PRICE_CONVEYOR := .nan
      PRICE_COMPACTOR := .nan
      PRICE_HAZMAT := .nan } =
      verifyModuleInit { sampleCfg with PRICE_COMPACTOR := .fin (-5) } :=
  ⟨by decide,
   C6_bad_price_is_per_request { sampleCfg with PRICE_COMPACTOR := .fin (-5) }
     .COMPACTOR .nan .nan .nan (by decide)⟩

/-- C7: when the ledger file exists but fails to parse, loading it for
the verify pipeline first copies the raw contents to a backup and then
throws, so the request ends in the 500 failure response with the ledger
file byte-identical, no uploads, no mint submissions, and the corrupted
contents preserved in the backup list — the state is never reset to an
empty ledger. -/
theorem C7_corrupted_ledger_fails_closed (cfg : VerifyConfig) (env : Env)
    (st : SrvState) (b : VerifyBody) (sig payer mint raw : String)
    (machine : Machine)
    (hv : ValidRequest st b sig payer mint machine)
    (hrl : env.rateLimitOk = true) (hcl : env.contentLength = 0)
    (hfile : st.m.file = some raw)
    (hparse : env.parseLedgerJson raw = none) :
    (POSTverify cfg env st (.parsed b)).resp.status = 500 ∧
    (POSTverify cfg env st (.parsed b)).state.m.file = some raw ∧
    (POSTverify cfg env st (.parsed b)).state.m.backups =
      st.m.backups ++ [raw] ∧
    (POSTverify cfg env st (.parsed b)).state.m.uploads = st.m.uploads ∧
    (POSTverify cfg env st (.parsed b)).state.m.mintCalls =
      st.m.mintCalls := by
  have hpost := POSTverify_locked cfg env st b sig payer mint machine hv hrl hcl
  have e1 := runLocked_corrupt cfg env sig payer mint machine st.m raw
    hfile hparse
  rw [hpost, e1]
  exact ⟨catchResponse_status corrupt_not_retryable, hfile, rfl, rfl, rfl⟩

/-- C8: a POST /verify whose signature is already recorded in the
ledger's `usedSignatures` returns the 409 conflict and performs zero
uploads and zero mint submissions, leaving the ledger file, backups and
counters exactly as they were. -/
theorem C8_repeat_signature_conflict_no_side_effects (cfg : VerifyConfig)
    (env : Env) (st : SrvState) (b : VerifyBody)
    (sig payer mint raw : String) (machine : Machine) (l : Ledger)
    (hv : ValidRequest st b sig payer mint machine)
    (hrl : env.rateLimitOk = true) (hcl : env.contentLength = 0)
    (hfile : st.m.file = some raw)
    (hparse : env.parseLedgerJson raw = some l)
    (hsb : env.supabase = none)
    (hused : strTruthy (recGet l.usedSignatures sig) = true) :
    (POSTverify cfg env st (.parsed b)).resp =
      jsonResp 409 [("error", .str "Signature already used")] ∧
    (POSTverify cfg env st (.parsed b)).state.m = st.m := by
  have hpost := POSTverify_locked cfg env st b sig payer mint machine hv hrl hcl
  have e1 := runLocked_sigUsed cfg env sig payer mint machine st.m raw l
    hfile hparse hsb hused
  rw [hpost, e1]
  exact ⟨rfl, rfl⟩

/-- C9: when every tier's committed count has reached its cap, a new
verify request that passes payment and ownership checks is rejected (the
sold-out roll throws, surfacing as the 500 failure response) before any
upload or mint call is attempted, and the ledger is unchanged. -/
theorem C9_sold_out_rejected_before_side_effects (cfg : VerifyConfig)
    (env : Env) (st : SrvState) (b : VerifyBody)
    (sig payer mint raw : String) (machine : Machine) (l : Ledger)
    (tx : ParsedTx) (a1 a2 : List TokenAccount) (bal : Int)
    (hv : ValidRequest st b sig payer mint machine)
    (hl : LoadsCleanly env st.m raw l sig)
    (htx : TxPasses cfg env tx a1 a2 payer machine)
    (hbal : env.treasuryBalanceBefore = .ok bal)
    (hcaps : capsOk cfg = true)
    (hall : ∀ u, tierCapsRaw cfg u ≤ (getTierCounts l u : ℚ)) :
    (POSTverify cfg env st (.parsed b)).resp.status = 500 ∧
    (POSTverify cfg env st (.parsed b)).state.m = st.m := by
  obtain ⟨hrl, hcl, hfile, hparse, hsb, hnu⟩ := hl
  have hpost := POSTverify_locked cfg env st b sig payer mint machine hv hrl hcl
  have e1 := runLocked_clean cfg env sig payer mint machine st.m raw l
    hfile hparse hsb hnu
  have e2 := txPhase_passes cfg env sig payer mint machine
    { l with mintCount := some (l.mintCount.getD 0) } none st.m tx a1 a2 htx
  have e3 := commitPhase_soldOut cfg env sig payer mint machine
    { l with mintCount := some (l.mintCount.getD 0) } none st.m bal
    hbal hcaps hsb hall
  rw [hpost, e1, e2, e3]
  exact ⟨catchResponse_status soldOut_not_retryable, rfl⟩

/-- C10: every POST /verify invocation — success, rejection or propagated
error — leaves the in-flight signature and mint guard sets exactly as
they were before the invocation, so no finished request can leave a
stale "already being processed" entry behind. -/
theorem C10_inflight_guards_restored (cfg : VerifyConfig) (env : Env)
    (st : SrvState) (body : ReqBody) :
    (POSTverify cfg env st body).state.inFlightSignatures =
      st.inFlightSignatures ∧
    (POSTverify cfg env st body).state.inFlightMints =
      st.inFlightMints := by
  unfold POSTverify
  split
  · exact ⟨rfl, rfl⟩
  split
  · exact ⟨rfl, rfl⟩
  split
  · exact ⟨rfl, rfl⟩
  next b =>
    dsimp only
    split
    · exact ⟨rfl, rfl⟩
    split
    · exact ⟨rfl, rfl⟩
    split
    · exact ⟨rfl, rfl⟩
    split
    · exact ⟨rfl, rfl⟩
    split
    · exact ⟨rfl, rfl⟩
    split
    · exact ⟨rfl, rfl⟩
    next hmem =>
      push_neg at hmem
      exact ⟨setDel_setAdd hmem.1, setDel_setAdd hmem.2⟩

/-- Witness for C2: the cap-guard theorem applied at a concrete state
whose tier3 allocation is consumed and whose digest (the maximal 32-bit
value) rolls tier3. -/
theorem C2_tier_cap_guard_witness :
    ValidRequest st0 body2 sampleSig2 samplePayer sampleMint .CONVEYOR ∧
    LoadsCleanly maxHashEnv st0.m "L0" tier3FullLedger sampleSig2 ∧
    TxPasses capOneCfg maxHashEnv goodTx [{ uiAmount := 1, decimals := 0 }]
      [] samplePayer .CONVEYOR ∧
    capsOk capOneCfg = true ∧
    rollTier maxHashEnv.sha256_32 capOneCfg.ROLL_SECRET .CONVEYOR sampleSig2
      (fun u => ((getTierCounts tier3FullLedger u : ℚ)))
      (tierCapsRaw capOneCfg) = .ok .tier3 ∧
    tierCapsRaw capOneCfg .tier3 ≤
      (getTierCounts tier3FullLedger .tier3 : ℚ) ∧
    (POSTverify capOneCfg maxHashEnv st0 (.parsed body2)).resp =
      jsonResp 409 [("error", .str "This tier is sold out")] ∧
    (POSTverify capOneCfg maxHashEnv st0 (.parsed body2)).state.m = st0.m := by
  have hv : ValidRequest st0 body2 sampleSig2 samplePayer sampleMint
      .CONVEYOR :=
    ⟨by decide, by decide, by decide, by decide, by decide, by decide,
     by decide, by decide, by decide, by decide⟩
  have hl : LoadsCleanly maxHashEnv st0.m "L0" tier3FullLedger sampleSig2 :=
    ⟨rfl, rfl, rfl, by decide, rfl, by decide⟩
  have htx : TxPasses capOneCfg maxHashEnv goodTx
      [{ uiAmount := 1, decimals := 0 }] [] samplePayer .CONVEYOR :=
    ⟨rfl, rfl, rfl, rfl, by decide, by decide, rfl, by decide⟩
  have hcaps : capsOk capOneCfg = true := by decide
  have hroll : rollTier maxHashEnv.sha256_32 capOneCfg.ROLL_SECRET .CONVEYOR
      sampleSig2 (fun u => ((getTierCounts tier3FullLedger u : ℚ)))
      (tierCapsRaw capOneCfg) = .ok .tier3 := by decide
  have hcap : tierCapsRaw capOneCfg .tier3 ≤
      (getTierCounts tier3FullLedger .tier3 : ℚ) := by decide
  exact ⟨hv, hl, htx, hcaps, hroll, hcap,
    C2_tier_cap_guard_rejects_and_never_commits capOneCfg maxHashEnv st0
      body2 sampleSig2 samplePayer sampleMint "L0" .CONVEYOR
      tier3FullLedger goodTx [{ uiAmount := 1, decimals := 0 }] [] 0 .tier3
      hv hl htx rfl hcaps hroll hcap⟩

/-- Witness for C3: the amended amount-check theorem applied at the
concrete 1-GOR CONVEYOR price with a payment one base unit short. -/
theorem C3_exact_amount_witness :
    toLamports sampleCfg (priceRaw sampleCfg .CONVEYOR).toQ = 1000000000 ∧
    ValidRequest st0 body2 sampleSig2 samplePayer sampleMint .CONVEYOR ∧
    LoadsCleanly shortPayEnv st0.m "L0" ledger0 sampleSig2 ∧
    shortPayEnv.txFetch = .found shortTx ∧
    verifyPaymentInstruction goodTx samplePayer sampleCfg.TREASURY
      (toLamports sampleCfg (priceRaw sampleCfg .CONVEYOR).toQ) = true ∧
    verifyPaymentInstruction shortTx samplePayer sampleCfg.TREASURY
      (toLamports sampleCfg (priceRaw sampleCfg .CONVEYOR).toQ) = false ∧
    (POSTverify sampleCfg shortPayEnv st0 (.parsed body2)).resp =
      jsonResp 400 [("error", .str "Payment verification failed")] ∧
    (∀ e a : Int, ¬ disclosesAmounts
      (POSTverify sampleCfg shortPayEnv st0 (.parsed body2)).resp e a) ∧
    (POSTverify sampleCfg shortPayEnv st0 (.parsed body2)).state.m =
      st0.m := by
  have hexp : toLamports sampleCfg (priceRaw sampleCfg .CONVEYOR).toQ =
      ((1000000000 : Nat) : Int) := by decide
  have hv : ValidRequest st0 body2 sampleSig2 samplePayer sampleMint
      .CONVEYOR :=
    ⟨by decide, by decide, by decide, by decide, by decide, by decide,
     by decide, by decide, by decide, by decide⟩
  have hl : LoadsCleanly shortPayEnv st0.m "L0" ledger0 sampleSig2 :=
    ⟨rfl, rfl, rfl, by decide, rfl, by decide⟩
  have hmain := C3_exact_amount_passes_short_rejected_generic sampleCfg
    shortPayEnv st0 body2 sampleSig2 samplePayer sampleMint "L0" .CONVEYOR
    ledger0 goodTx shortTx 1000000000 hexp (by decide) (by decide)
    (by decide) hv hl rfl rfl rfl rfl (by decide)
  exact ⟨hexp, hv, hl, rfl, hmain.1, hmain.2.1, hmain.2.2.1,
    hmain.2.2.2.1, hmain.2.2.2.2⟩

/-- Witness for C7: the fail-closed theorem applied at a concrete state
whose ledger file "L0" never parses. -/
theorem C7_corrupted_ledger_witness :
    ValidRequest st0 body2 sampleSig2 samplePayer sampleMint .CONVEYOR ∧
    st0.m.file = some "L0" ∧
    corruptEnv.parseLedgerJson "L0" = none ∧
    (POSTverify sampleCfg corruptEnv st0 (.parsed body2)).resp.status =
      500 ∧
    (POSTverify sampleCfg corruptEnv st0 (.parsed body2)).state.m.file =
      some "L0" ∧
    (POSTverify sampleCfg corruptEnv st0 (.parsed body2)).state.m.backups =
      st0.m.backups ++ ["L0"] ∧
    (POSTverify sampleCfg corruptEnv st0 (.parsed body2)).state.m.uploads =
      st0.m.uploads ∧
    (POSTverify sampleCfg corruptEnv st0 (.parsed body2)).state.m.mintCalls =
      st0.m.mintCalls := by
  have hv : ValidRequest st0 body2 sampleSig2 samplePayer sampleMint
      .CONVEYOR :=
    ⟨by decide, by decide, by decide, by decide, by decide, by decide,
     by decide, by decide, by decide, by decide⟩
  exact ⟨hv, rfl, rfl,
    C7_corrupted_ledger_fails_closed sampleCfg corruptEnv st0 body2
      sampleSig2 samplePayer sampleMint "L0" .CONVEYOR hv rfl rfl rfl rfl⟩

/-- Witness for C8: the idempotent-retry theorem applied at a concrete
ledger that already records `sampleSig`. -/
theorem C8_repeat_signature_witness :
    ValidRequest st0 body1 sampleSig samplePayer sampleMint .CONVEYOR ∧
    strTruthy (recGet ledger0.usedSignatures sampleSig) = true ∧
    (POSTverify sampleCfg sampleEnv st0 (.parsed body1)).resp =
      jsonResp 409 [("error", .str "Signature already used")] ∧
    (POSTverify sampleCfg sampleEnv st0 (.parsed body1)).state.m =
      st0.m := by
  have hv : ValidRequest st0 body1 sampleSig samplePayer sampleMint
      .CONVEYOR :=
    ⟨by decide, by decide, by decide, by decide, by decide, by decide,
     by decide, by decide, by decide, by decide⟩
  have hused : strTruthy (recGet ledger0.usedSignatures sampleSig) = true :=
    by decide
  exact ⟨hv, hused,
    C8_repeat_signature_conflict_no_side_effects sampleCfg sampleEnv st0
      body1 sampleSig samplePayer sampleMint "L0" .CONVEYOR ledger0
      hv rfl rfl rfl (by decide) rfl hused⟩

/-- Witness for C9: the sold-out theorem applied at a concrete ledger
with all three caps (set to 1) consumed. -/
theorem C9_sold_out_witness :
    ValidRequest st0 body3 sampleSig2 samplePayer sampleMint3 .CONVEYOR ∧
    LoadsCleanly allFullEnv st0.m "L0" allFullLedger sampleSig2 ∧
    TxPasses capOneCfg allFullEnv goodTx [{ uiAmount := 1, decimals := 0 }]
      [] samplePayer .CONVEYOR ∧
    capsOk capOneCfg = true ∧
    (∀ u, tierCapsRaw capOneCfg u ≤ (getTierCounts allFullLedger u : ℚ)) ∧
    (POSTverify capOneCfg allFullEnv st0 (.parsed body3)).resp.status =
      500 ∧
    (POSTverify capOneCfg allFullEnv st0 (.parsed body3)).state.m =
      st0.m := by
  have hv : ValidRequest st0 body3 sampleSig2 samplePayer sampleMint3
      .CONVEYOR :=
    ⟨by decide, by decide, by decide, by decide, by decide, by decide,
     by decide, by decide, by decide, by decide⟩
  have hl : LoadsCleanly allFullEnv st0.m "L0" allFullLedger sampleSig2 :=
    ⟨rfl, rfl, rfl, by decide, rfl, by decide⟩
  have htx : TxPasses capOneCfg allFullEnv goodTx
      [{ uiAmount := 1, decimals := 0 }] [] samplePayer .CONVEYOR :=
    ⟨rfl, rfl, rfl, rfl, by decide, by decide, rfl, by decide⟩
  have hcaps : capsOk capOneCfg = true := by decide
  have hall : ∀ u, tierCapsRaw capOneCfg u ≤
      (getTierCounts allFullLedger u : ℚ) := by decide
  exact ⟨hv, hl, htx, hcaps, hall,
    C9_sold_out_rejected_before_side_effects capOneCfg allFullEnv st0
      body3 sampleSig2 samplePayer sampleMint3 "L0" .CONVEYOR
      allFullLedger goodTx [{ uiAmount := 1, decimals := 0 }] [] 0
      hv hl htx rfl hcaps hall⟩

end Gorbage
